import Mathlib

/-!
# Verification of the rschip8 execution core (`src/cpu.rs`)

This file is a shallow embedding of the CHIP-8 execution core in `src/cpu.rs`.
Conventions used throughout:

* Rust machine integers are modelled as `Nat` with explicit truncation where
  the Rust type wraps: `u8` arithmetic is taken modulo 256, `u16` modulo
  65536, `u32` modulo 4294967296 (release-profile two's-complement wrapping
  semantics; the wrapping points correspond exactly to the `u8`/`u16`/`u32`
  operations of the source).
* Bit operations on values that the source manipulates as bytes are written
  arithmetically: for any `Nat` `b`, `(b &&& 0xf0) >>> 4 = b / 16 % 16`,
  `b &&& 0x0f = b % 16`, `b >>> 8 = b / 256`, `b &&& 0xff = b % 256`,
  `b &&& 0xfff = b % 4096`, `b >>> 1 = b / 2`, `b >>> 7 = b / 128` and
  `b <<< 1 = b * 2`; these identities hold for all `Nat`, so the arithmetic
  form is extensionally the source's bit-twiddling form.
* Fallible operations (Rust code that can `panic!`, via out-of-bounds
  indexing, `expect`, a failed `assert!` or an explicit panic) return
  `Except RtPanic _`; each `RtPanic` constructor names the panic site.
* `Vec<u8>` memory of fixed length 4096 is modelled as a total function
  `Nat → Nat` together with the explicit bounds checks that Rust's indexing
  performs; only addresses `< 4096` are ever readable/writable, any other
  access is the `indexOutOfBounds` panic.
* The register file `[u8; 16]` is modelled as `Nat → Nat`; every index the
  program ever uses is a nibble (`< 16`), matching the array's in-bounds
  accesses.
-/

namespace Chip8

/-- The distinct Rust panic sites of `src/cpu.rs`, used as the error type of
fallible operations. -/
inductive RtPanic where
  /-- `Vec` indexing out of bounds (`self.memory[addr]`, `splice`). -/
  | indexOutOfBounds
  /-- out-of-bounds slice in `read_word` (`memory[addr..addr+2]`). -/
  | readOutOfBounds
  /-- `assert!(nr <= 8)` failure in `store_regs` / `load_regs`. -/
  | assertionFailure
  /-- `clone_from_slice` length mismatch in `read_bytes`. -/
  | cloneLengthMismatch
  /-- the explicit `panic!("undefined opcode")` in `clock`. -/
  | undefinedOpcode
deriving DecidableEq, Repr

/-- `struct Registers` of `src/cpu.rs`: sixteen 8-bit general registers, the
index register `i`, program counter `pc` and stack pointer `sp`. -/
@[ext] structure Registers where
  v_regs : Nat → Nat
  i : Nat
  pc : Nat
  sp : Nat

/-- `struct CPU` of `src/cpu.rs`. -/
@[ext] structure CPU where
  regs : Registers
  memory : Nat → Nat
  dt : Nat
  st : Nat
  timedelta_error : Nat
  prng_val : Nat

/-- `bytes_to_nibbles`: each byte `b` contributes `(b & 0xf0) >> 4` then
`b & 0x0f`, i.e. `b / 16 % 16` then `b % 16`. -/
def bytes_to_nibbles : List Nat → List Nat
  | [] => []
  | b :: rest => (b / 16 % 16) :: (b % 16) :: bytes_to_nibbles rest

/-- `nibbles_to_bytes`: pair consecutive nibbles into bytes, the second one
or-ed into the low nibble of the first (`v[idx] << 4 | *b`, a `u8` shift). -/
def nibbles_to_bytes : List Nat → List Nat
  | [] => []
  | [a] => [a]
  | a :: b :: rest => (a * 16 % 256 ||| b) :: nibbles_to_bytes rest

/-- `nibbles3_to_u16`: big-endian u16 from `[0] ++ nibbles[1..]`. The
`try_into().unwrap()` always succeeds on the 4-nibble input of the one call
site, so the fallback value 0 is unreachable there. -/
def nibbles3_to_u16 (insn_nibbles : List Nat) : Nat :=
  match nibbles_to_bytes (0 :: insn_nibbles.drop 1) with
  | [b0, b1] => b0 * 256 + b1
  | _ => 0

/-- `CPU::new`: zeroed memory and registers, SP at 0x200, fixed PRNG seed. -/
def CPU.new : CPU :=
  { regs := { v_regs := fun _ => 0, i := 0, pc := 0, sp := 0x200 }
    memory := fun _ => 0
    dt := 0
    st := 0
    timedelta_error := 0
    prng_val := 0x0badf00d }

/-- `CPU::go`: set the program counter. -/
def go (c : CPU) (addr : Nat) : CPU :=
  { c with regs := { c.regs with pc := addr } }

/-- `CPU::get_pc`. -/
def get_pc (c : CPU) : Nat :=
  c.regs.pc

/-- internal helper for the frequent `self.regs.pc = ...` assignments. -/
def set_pc (c : CPU) (addr : Nat) : CPU :=
  { c with regs := { c.regs with pc := addr } }

/-- internal helper for `self.regs.i = ...` assignments. -/
def set_i (c : CPU) (v : Nat) : CPU :=
  { c with regs := { c.regs with i := v } }

/-- internal helper for `self.regs.v_regs[k] = val` assignments. -/
def setV (c : CPU) (k val : Nat) : CPU :=
  { c with regs := { c.regs with v_regs := fun j => if j = k then val else c.regs.v_regs j } }

/-- `CPU::write_byte`: `self.memory[addr as usize] = data`. Indexing a
4096-element `Vec` out of bounds panics; it never wraps or clamps. `data` is
a `u8` (< 256) at every call site. -/
def write_byte (c : CPU) (addr data : Nat) : Except RtPanic CPU :=
  if addr < 4096 then
    .ok { c with memory := fun a => if a = addr then data else c.memory a }
  else .error .indexOutOfBounds

/-- `CPU::read_byte`: `self.memory[addr as usize]`. -/
def read_byte (c : CPU) (addr : Nat) : Except RtPanic Nat :=
  if addr < 4096 then .ok (c.memory addr) else .error .indexOutOfBounds

/-- `CPU::write_word`: big-endian, `to_be_bytes` gives `[data >> 8, data & 0xff]`
(the source value is a `u16`); the second write is at `addr + 1` (a `u16` add). -/
def write_word (c : CPU) (addr data : Nat) : Except RtPanic CPU :=
  match write_byte c addr (data / 256 % 256) with
  | .error e => .error e
  | .ok c1 => write_byte c1 ((addr + 1) % 65536) (data % 256)

/-- `CPU::read_word`: big-endian word from the slice `memory[addr..addr+2]`;
the slice panics when `addr + 2` exceeds the length 4096. -/
def read_word (c : CPU) (addr : Nat) : Except RtPanic Nat :=
  if addr + 2 ≤ 4096 then .ok (c.memory addr * 256 + c.memory (addr + 1))
  else .error .readOutOfBounds

/-- `CPU::write_bytes`: `splice(addr..addr+len, data)`, which panics when the
range end exceeds the length 4096 and otherwise replaces exactly that range. -/
def write_bytes (c : CPU) (addr : Nat) (data : List Nat) : Except RtPanic CPU :=
  if addr + data.length ≤ 4096 then
    .ok { c with memory := fun a =>
      if addr ≤ a ∧ a < addr + data.length then data.getD (a - addr) 0 else c.memory a }
  else .error .indexOutOfBounds

set_option linter.unusedVariables false in
/-- `CPU::read_bytes`: takes the slice `memory[addr..addr+size]` — which
panics when `addr + size` exceeds the length 4096, before anything else
runs — and calls `clone_from_slice` on a freshly created *empty* vector
`v`. `clone_from_slice` panics whenever source and destination lengths
differ, i.e. for every `size ≠ 0`; only a zero-length in-range read
returns, and it returns the empty vector. -/
def read_bytes (c : CPU) (addr size : Nat) : Except RtPanic (List Nat) :=
  if addr + size ≤ 4096 then
    if size = 0 then .ok [] else .error .cloneLengthMismatch
  else .error .readOutOfBounds

/-- `CPU::push_word`: `sp -= 2` (a `u16` subtraction) then write the word at
the new SP. -/
def push_word (c : CPU) (data : Nat) : Except RtPanic CPU :=
  let c1 := { c with regs := { c.regs with sp := (c.regs.sp + 65536 - 2) % 65536 } }
  write_word c1 c1.regs.sp data

/-- `CPU::pop_word`: read the word at SP, then `sp += 2`. -/
def pop_word (c : CPU) : Except RtPanic (Nat × CPU) :=
  match read_word c c.regs.sp with
  | .error e => .error e
  | .ok data => .ok (data, { c with regs := { c.regs with sp := (c.regs.sp + 2) % 65536 } })

/-- `CPU::do_ret`: `pc = pop_word()`. -/
def do_ret (c : CPU) : Except RtPanic CPU :=
  match pop_word c with
  | .error e => .error e
  | .ok dc => .ok (set_pc dc.2 dc.1)

/-- `CPU::do_call`: `push_word(pc + 2); pc = addr`. Note that `clock` has
already advanced PC past the call instruction when this runs. -/
def do_call (c : CPU) (addr : Nat) : Except RtPanic CPU :=
  match push_word c ((c.regs.pc + 2) % 65536) with
  | .error e => .error e
  | .ok c1 => .ok (set_pc c1 addr)

/-- `CPU::clear_screen` has an empty body. -/
def clear_screen (c : CPU) : CPU :=
  c

/-- `CPU::set_vf`. -/
def set_vf (c : CPU) : CPU :=
  setV c 0xf 1

/-- `CPU::set_vf_cond`. -/
def set_vf_cond (c : CPU) (cond : Prop) [Decidable cond] : CPU :=
  setV c 0xf (if cond then 1 else 0)

/-- `CPU::clear_vf`. -/
def clear_vf (c : CPU) : CPU :=
  setV c 0xf 0

/-- `CPU::binary_reg_op`: `x`/`y` are read from the register file before any
write; for ops 4/5/6/7/E the flag register V0xF is written first (from the
original operands) and then the arm's result is stored into `v_regs[dest]`.
`x + y`, `x - y`, `y - x` and `x << 1` are `u8` operations and wrap modulo
256 (for `u8` values `a`, `b` the wrapping difference `a - b` is
`(a + 256 - b) % 256`); `x >> 1` is `x / 2`, `x & 1` is `x % 2`, `x >> 7` is
`x / 128`. -/
def binary_reg_op (c : CPU) (dest src op : Nat) : CPU :=
  let x := c.regs.v_regs dest
  let y := c.regs.v_regs src
  if op = 0x0 then setV c dest y
  else if op = 0x1 then setV c dest (x ||| y)
  else if op = 0x2 then setV c dest (x &&& y)
  else if op = 0x3 then setV c dest (x ^^^ y)
  else if op = 0x4 then setV (set_vf_cond c (255 < x + y)) dest ((x + y) % 256)
  else if op = 0x5 then setV (set_vf_cond c (y < x)) dest ((x + 256 - y) % 256)
  else if op = 0x6 then setV (setV c 0xf (x % 2)) dest (x / 2)
  else if op = 0x7 then setV (set_vf_cond c (x < y)) dest ((y + 256 - x) % 256)
  else if op = 0xe then setV (setV c 0xf (x / 128)) dest (x * 2 % 256)
  else setV c dest 0

/-- `CPU::skip_cond`: advance PC by 2 (a `u16` add) when the condition holds. -/
def skip_cond (c : CPU) (cond : Prop) [Decidable cond] : CPU :=
  if cond then set_pc c ((c.regs.pc + 2) % 65536) else c

/-- `CPU::random`: 32-bit xorshift (`^= << 13`, `^= >> 17`, `^= << 5`, all
`u32` operations), returning the low byte and the mutated state. Truncating
an xor after the fact equals xoring the truncated shift, so the single outer
`% 2^32` per step is the `u32` wrap of the shifted operand. -/
def random (c : CPU) : Nat × CPU :=
  let p1 := (c.prng_val ^^^ c.prng_val <<< 13) % 4294967296
  let p2 := (p1 ^^^ p1 >>> 17) % 4294967296
  let p3 := (p2 ^^^ p2 <<< 5) % 4294967296
  (p3 % 256, { c with prng_val := p3 })

/-- loop body of `CPU::store_regs`: write `v_regs[i]` to `addr + i` (a `u16`
add) for each `i` in the given index list. -/
def store_regs_loop (c : CPU) (addr : Nat) : List Nat → Except RtPanic CPU
  | [] => .ok c
  | i :: rest =>
    match write_byte c ((addr + i) % 65536) (c.regs.v_regs i) with
    | .error e => .error e
    | .ok c1 => store_regs_loop c1 addr rest

/-- `CPU::store_regs`: `assert!(nr <= 8)`, then store `v_regs[0..nr]`
(exclusive) to memory from `addr`. -/
def store_regs (c : CPU) (addr nr : Nat) : Except RtPanic CPU :=
  if nr ≤ 8 then store_regs_loop c addr (List.range nr)
  else .error .assertionFailure

/-- loop body of `CPU::load_regs`. -/
def load_regs_loop (c : CPU) (addr : Nat) : List Nat → Except RtPanic CPU
  | [] => .ok c
  | i :: rest =>
    match read_byte c ((addr + i) % 65536) with
    | .error e => .error e
    | .ok b => load_regs_loop (setV c i b) addr rest

/-- `CPU::load_regs`: `assert!(nr <= 8)`, then load `v_regs[0..nr]`
(exclusive) from memory at `addr`. -/
def load_regs (c : CPU) (addr nr : Nat) : Except RtPanic CPU :=
  if nr ≤ 8 then load_regs_loop c addr (List.range nr)
  else .error .assertionFailure

/-- the timer block at the top of `CPU::clock` (lines 212-215 of the source):
`timer_ticks = (ms_delta + timedelta_error) / 16` (`u32` arithmetic, the sum
wraps modulo 2^32), `timedelta_error = (...) % 16`, and each timer becomes
`cmp::min(0, timer - timer_ticks as u8)` — an unsigned `min` with 0, the
subtraction wrapping and the tick count truncated to `u8`. Returns
`(st, dt, timedelta_error)`. -/
def timer_update (st dt err ms_delta : Nat) : Nat × Nat × Nat :=
  let s := (ms_delta + err) % 4294967296
  let timer_ticks := s / 16
  (min 0 ((st + 256 - timer_ticks % 256) % 256),
   min 0 ((dt + 256 - timer_ticks % 256) % 256),
   s % 16)

/-- the decode-and-dispatch tail of `CPU::clock`: PC is advanced by 2 before
the `match insn`, whose arms are tried in source order — in particular the
overlapping `0xf0..`-range arms are reached only by values rejected by every
earlier range. `insn_bytes = insn.to_be_bytes()` is `[insn / 256, insn % 256]`
and `insn_nibbles = bytes_to_nibbles(insn_bytes)`; `insn & 0xfff` is
`insn % 4096`. The `getD` default 0 is unreachable: the nibble list of a
2-byte word always has 4 entries. -/
def execute (c1 : CPU) (insn : Nat) : Except RtPanic CPU :=
  let insn_nibbles := bytes_to_nibbles [insn / 256, insn % 256]
  let n1 := insn_nibbles.getD 1 0
  let n2 := insn_nibbles.getD 2 0
  let n3 := insn_nibbles.getD 3 0
  let lo := insn % 256
  let c := set_pc c1 ((c1.regs.pc + 2) % 65536)
  if insn = 0x00e0 then .ok (clear_screen c)
  else if insn = 0x00ee then do_ret c
  else if 0x1000 ≤ insn ∧ insn ≤ 0x1fff then .ok (set_pc c (insn % 4096))
  else if 0x2000 ≤ insn ∧ insn ≤ 0x2fff then do_call c (insn % 4096)
  else if 0x3000 ≤ insn ∧ insn ≤ 0x3fff then .ok (skip_cond c (c.regs.v_regs n1 = lo))
  else if 0x4000 ≤ insn ∧ insn ≤ 0x4fff then .ok (skip_cond c (c.regs.v_regs n1 ≠ lo))
  else if 0x5000 ≤ insn ∧ insn ≤ 0x5fff then
    .ok (skip_cond c (c.regs.v_regs n1 = c.regs.v_regs n2))
  else if 0x6000 ≤ insn ∧ insn ≤ 0x6fff then .ok (setV c n1 lo)
  else if 0x7000 ≤ insn ∧ insn ≤ 0x7fff then
    .ok (setV c n1 ((c.regs.v_regs n1 + lo) % 256))
  else if 0x8000 ≤ insn ∧ insn ≤ 0x8fff then .ok (binary_reg_op c n1 n2 n3)
  else if 0x9000 ≤ insn ∧ insn ≤ 0x9fff then
    .ok (skip_cond c (c.regs.v_regs n1 ≠ c.regs.v_regs n2))
  else if 0xa000 ≤ insn ∧ insn ≤ 0xafff then .ok (set_i c (nibbles3_to_u16 insn_nibbles))
  else if 0xb000 ≤ insn ∧ insn ≤ 0xbfff then
    .ok (set_pc c ((nibbles3_to_u16 insn_nibbles + c.regs.v_regs 0) % 65536))
  else if 0xc000 ≤ insn ∧ insn ≤ 0xcfff then
    let rc := random c
    .ok (setV rc.2 n1 (rc.1 &&& lo))
  else if 0xf007 ≤ insn ∧ insn ≤ 0xff07 then .ok (setV c n1 c.dt)
  else if 0xf015 ≤ insn ∧ insn ≤ 0xff15 then .ok { c with dt := c.regs.v_regs n1 }
  else if 0xf018 ≤ insn ∧ insn ≤ 0xff18 then .ok { c with st := c.regs.v_regs n1 }
  else if 0xf01e ≤ insn ∧ insn ≤ 0xff1e then
    .ok (set_i c ((c.regs.v_regs n1 + c.regs.i) % 65536))
  else if 0xf055 ≤ insn ∧ insn ≤ 0xff55 then store_regs c c.regs.i n1
  else if 0xf065 ≤ insn ∧ insn ≤ 0xff65 then load_regs c c.regs.i n1
  else .error .undefinedOpcode

/-- `CPU::clock`: run the timer block, fetch the word at PC (which can panic
out of bounds), then decode and dispatch via `execute`. -/
def clock (c0 : CPU) (ms_delta : Nat) : Except RtPanic CPU :=
  let t := timer_update c0.st c0.dt c0.timedelta_error ms_delta
  let c1 := { c0 with st := t.1, dt := t.2.1, timedelta_error := t.2.2 }
  match read_word c1 c1.regs.pc with
  | .error e => .error e
  | .ok insn => execute c1 insn

/-- the set of 16-bit words matched by some arm of the `match insn` dispatch
in `CPU::clock` (in source order; everything else hits the
`panic!("undefined opcode")` arm). -/
def matched_opcode (insn : Nat) : Prop :=
  insn = 0x00e0 ∨ insn = 0x00ee ∨
  (0x1000 ≤ insn ∧ insn ≤ 0x1fff) ∨ (0x2000 ≤ insn ∧ insn ≤ 0x2fff) ∨
  (0x3000 ≤ insn ∧ insn ≤ 0x3fff) ∨ (0x4000 ≤ insn ∧ insn ≤ 0x4fff) ∨
  (0x5000 ≤ insn ∧ insn ≤ 0x5fff) ∨ (0x6000 ≤ insn ∧ insn ≤ 0x6fff) ∨
  (0x7000 ≤ insn ∧ insn ≤ 0x7fff) ∨ (0x8000 ≤ insn ∧ insn ≤ 0x8fff) ∨
  (0x9000 ≤ insn ∧ insn ≤ 0x9fff) ∨ (0xa000 ≤ insn ∧ insn ≤ 0xafff) ∨
  (0xb000 ≤ insn ∧ insn ≤ 0xbfff) ∨ (0xc000 ≤ insn ∧ insn ≤ 0xcfff) ∨
  (0xf007 ≤ insn ∧ insn ≤ 0xff07) ∨ (0xf015 ≤ insn ∧ insn ≤ 0xff15) ∨
  (0xf018 ≤ insn ∧ insn ≤ 0xff18) ∨ (0xf01e ≤ insn ∧ insn ≤ 0xff1e) ∨
  (0xf055 ≤ insn ∧ insn ≤ 0xff55) ∨ (0xf065 ≤ insn ∧ insn ≤ 0xff65)

instance (insn : Nat) : Decidable (matched_opcode insn) := by
  unfold matched_opcode
  infer_instance

/-! ## Concrete machine states used to evaluate the code on failing inputs -/

/-- memory image holding a `2nnn` call to 0x500 at address 0x400 and a `00EE`
return at 0x500 (all other bytes zero). -/
def call_ret_mem : Nat → Nat :=
  fun a => if a = 0x400 then 0x25 else if a = 0x501 then 0xee else 0

/-- a fresh machine about to execute the call at 0x400. -/
def call_ret_cpu : CPU :=
  go { CPU.new with memory := call_ret_mem } 0x400

/-- a fresh machine with both timers at 5, about to execute a harmless
absolute jump (`0x1200`) with no elapsed time. -/
def timer_bug_cpu : CPU :=
  { CPU.new with memory := fun a => if a = 0 then 0x12 else 0, dt := 5, st := 5 }

/-- a machine with V0 = 3 about to execute opcode `0xF015` (set delay timer
to V0). -/
def fx15_cpu : CPU :=
  { CPU.new with
    memory := fun a => if a = 0 then 0xf0 else if a = 1 then 0x15 else 0
    regs := { CPU.new.regs with v_regs := fun j => if j = 0 then 3 else 0 } }

/-- a machine with V0 = 3 about to execute opcode `0xF018` (set sound timer
to V0). -/
def fx18_cpu : CPU :=
  { CPU.new with
    memory := fun a => if a = 0 then 0xf0 else if a = 1 then 0x18 else 0
    regs := { CPU.new.regs with v_regs := fun j => if j = 0 then 3 else 0 } }

/-- a machine with I = 0x300, V0 = 0xAA, V1 = 0xBB about to execute opcode
`0xF155` (store V0..V1 to memory at I). -/
def fx55_cpu : CPU :=
  { CPU.new with
    memory := fun a => if a = 0 then 0xf1 else if a = 1 then 0x55 else 0
    regs := { CPU.new.regs with
              i := 0x300
              v_regs := fun j => if j = 0 then 0xaa else if j = 1 then 0xbb else 0 } }

/-- a machine with I = 0x300 about to execute opcode `0xFF55` (store
V0..V15 to memory at I). -/
def ff55_cpu : CPU :=
  { CPU.new with
    memory := fun a => if a = 0 then 0xff else if a = 1 then 0x55 else 0
    regs := { CPU.new.regs with i := 0x300 } }

/-! ## Helper lemmas -/

theorem setV_v_regs (c : CPU) (k v j : Nat) :
    (setV c k v).regs.v_regs j = if j = k then v else c.regs.v_regs j := rfl

theorem setV_setV (c : CPU) (k a b : Nat) : setV (setV c k a) k b = setV c k b := by
  refine CPU.ext ?_ rfl rfl rfl rfl rfl
  refine Registers.ext ?_ rfl rfl rfl
  funext j
  by_cases h : j = k <;> simp [setV, h]

/-! ## Claim theorems -/

/-- C1: the code contradicts the claim. A `2nnn` call at address A = 0x400
immediately followed by `00EE` leaves PC = 0x404 = A + 4, not A + 2 as the
claim states: `clock` advances PC to A + 2 before dispatch and `do_call`
then pushes PC + 2 = A + 4. The stack pointer is restored to its pre-call
value 0x200 (that part of the claim holds). -/
theorem call_then_ret_lands_at_A_plus_4 :
    ((clock call_ret_cpu 0).bind fun c1 => clock c1 0).map
        (fun c2 => (get_pc c2, c2.regs.sp)) = .ok (0x404, 0x200) := by
  rfl

/-- C3: the code contradicts the claim. With both timers at 5 and zero
elapsed ticks, one `clock` call sets both timers to 0, because the source
computes `cmp::min(0, timer - ticks)` — an unsigned minimum with 0, which is
always 0 — instead of the saturating `max(0, timer - ticks) = 5` the claim
(and the spec's own open question) require. -/
theorem clock_zeroes_timers :
    (clock timer_bug_cpu 0).map (fun c => (c.dt, c.st)) = .ok (0, 0) := by
  rfl

/-- C4: the code contradicts the claim. Executing opcode `0xF015` with
V0 = 3 must set the delay timer to 3; instead the earlier range arm
`0xf007..=0xff07` also covers `0xf015`, so the code executes `V0 = dt`,
leaving `(V0, dt) = (0, 0)` (dt having been zeroed by the timer block).
`0xF018` likewise hits the `Fx07` arm instead of setting the sound timer. -/
theorem fx15_fx18_misdispatch :
    (clock fx15_cpu 0).map (fun c => (c.regs.v_regs 0, c.dt)) = .ok (0, 0) ∧
    (clock fx18_cpu 0).map (fun c => (c.regs.v_regs 0, c.st)) = .ok (0, 0) := by
  exact ⟨rfl, rfl⟩

/-- C5 counterexample: the fetched word 0x0000 matches no arm and execution
does not yield a recoverable reported condition — it hits the source's
`panic!("undefined opcode")`, modelled as the `undefinedOpcode` panic. -/
theorem opcode_0000_panics :
    clock CPU.new 0 = .error .undefinedOpcode := by
  rfl

/-- C6: the code contradicts the claim. Executing `0xF155` (store V0..V1 at
I = 0x300) writes nothing to memory: the instruction is captured by the
earlier `0xf007..=0xff07` arm, which instead overwrites V1 with the delay
timer. And `0xFF55`, the only `Fx55` encoding that reaches `store_regs`,
dies on the source's `assert!(nr <= 8)` since x = 15. -/
theorem fx55_never_stores :
    (clock fx55_cpu 0).map (fun c => (c.memory 0x300, c.memory 0x301, c.regs.v_regs 1))
      = .ok (0, 0, 0) ∧
    clock ff55_cpu 0 = .error .assertionFailure := by
  exact ⟨rfl, rfl⟩

/-- a machine with V1 = V2 = 5, for exercising `8xy5`/`8xy7` on equal
operands. -/
def sub_eq_cpu : CPU :=
  { CPU.new with
    regs := { CPU.new.regs with
              v_regs := fun j => if j = 1 then 5 else if j = 2 then 5 else 0 } }

/-- C2 counterexample: with V1 = V2 = 5 (so Vx ≥ Vy and Vy ≥ Vx), both
`8xy5` and `8xy7` leave the flag register at 0, where the claim demands 1:
the source tests the strict `x > y` (resp. `y > x`), not `≥`. -/
theorem sub_flag_zero_on_equal_operands :
    sub_eq_cpu.regs.v_regs 1 = 5 ∧ sub_eq_cpu.regs.v_regs 2 = 5 ∧
    (binary_reg_op sub_eq_cpu 1 2 0x5).regs.v_regs 0xf = 0 ∧
    (binary_reg_op sub_eq_cpu 1 2 0x7).regs.v_regs 0xf = 0 := by
  exact ⟨rfl, rfl, rfl, rfl⟩

/-- C2 amended: for a destination register x ≠ 0xF, `8xy5` sets the flag to
1 exactly when Vx > Vy strictly (0 when the operands are equal) and stores
the wrapped difference (Vx − Vy) mod 256; `8xy7` sets the flag to 1 exactly
when Vy > Vx strictly and stores (Vy − Vx) mod 256. The flag is computed
from the original operand values, read before any register is written. -/
theorem sub_flag_strict (c : CPU) (dest src : Nat) (hd : dest ≠ 0xf) :
    ((binary_reg_op c dest src 0x5).regs.v_regs 0xf
        = if c.regs.v_regs src < c.regs.v_regs dest then 1 else 0) ∧
    ((binary_reg_op c dest src 0x5).regs.v_regs dest
        = (c.regs.v_regs dest + 256 - c.regs.v_regs src) % 256) ∧
    ((binary_reg_op c dest src 0x7).regs.v_regs 0xf
        = if c.regs.v_regs dest < c.regs.v_regs src then 1 else 0) ∧
    ((binary_reg_op c dest src 0x7).regs.v_regs dest
        = (c.regs.v_regs src + 256 - c.regs.v_regs dest) % 256) := by
  have h15 : (0xf : Nat) ≠ dest := fun h => hd h.symm
  refine ⟨?_, ?_, ?_, ?_⟩ <;>
    simp [binary_reg_op, setV_v_regs, set_vf_cond, h15]

/-- witness for the amended C2 theorem at a concrete input: V3 = 7, V4 = 9. -/
theorem sub_flag_strict_witness :
    ((binary_reg_op (setV (setV CPU.new 3 7) 4 9) 3 4 0x5).regs.v_regs 0xf
        = if (setV (setV CPU.new 3 7) 4 9).regs.v_regs 4
            < (setV (setV CPU.new 3 7) 4 9).regs.v_regs 3 then 1 else 0) ∧
    ((binary_reg_op (setV (setV CPU.new 3 7) 4 9) 3 4 0x5).regs.v_regs 3
        = ((setV (setV CPU.new 3 7) 4 9).regs.v_regs 3 + 256
            - (setV (setV CPU.new 3 7) 4 9).regs.v_regs 4) % 256) := by
  have h := sub_flag_strict (setV (setV CPU.new 3 7) 4 9) 3 4 (by decide)
  exact ⟨h.1, h.2.1⟩

/-- C10: when the destination register of an `8xyn` arithmetic/shift
instruction is the flag register itself (x = 0xF), the flag value written
mid-instruction is immediately overwritten by the arithmetic result: the
whole effect of the instruction is a single write of the wrapped result to
V0xF. -/
theorem flag_dest_overwritten_by_result (c : CPU) (src : Nat) :
    binary_reg_op c 0xf src 0x4
        = setV c 0xf ((c.regs.v_regs 0xf + c.regs.v_regs src) % 256) ∧
    binary_reg_op c 0xf src 0x5
        = setV c 0xf ((c.regs.v_regs 0xf + 256 - c.regs.v_regs src) % 256) ∧
    binary_reg_op c 0xf src 0x6 = setV c 0xf (c.regs.v_regs 0xf / 2) ∧
    binary_reg_op c 0xf src 0x7
        = setV c 0xf ((c.regs.v_regs src + 256 - c.regs.v_regs 0xf) % 256) ∧
    binary_reg_op c 0xf src 0xe = setV c 0xf (c.regs.v_regs 0xf * 2 % 256) := by
  exact ⟨setV_setV c 0xf _ _, setV_setV c 0xf _ _, setV_setV c 0xf _ _,
         setV_setV c 0xf _ _, setV_setV c 0xf _ _⟩

/-- C7: every memory access — byte (`write_byte`/`read_byte`), word
(`read_word`/`write_word`) and bulk (`write_bytes`/`read_bytes`) — whose
start address or last address `addr + len - 1` falls outside `[0, 4096)`
fails with the out-of-range panic, and an in-range byte write touches
exactly the requested address — no wrapping, truncation or clamping of
addresses ever happens. -/
theorem memory_access_bounds (c : CPU) (addr data sz : Nat) (bs : List Nat) :
    (4096 ≤ addr → write_byte c addr data = .error .indexOutOfBounds) ∧
    (4096 ≤ addr → read_byte c addr = .error .indexOutOfBounds) ∧
    (4096 < addr + 2 → read_word c addr = .error .readOutOfBounds) ∧
    (4096 < addr + 2 → write_word c addr data = .error .indexOutOfBounds) ∧
    (4096 < addr + bs.length → write_bytes c addr bs = .error .indexOutOfBounds) ∧
    (4096 < addr + sz → read_bytes c addr sz = .error .readOutOfBounds) ∧
    (addr < 4096 →
      ∃ c1, write_byte c addr data = .ok c1 ∧ c1.memory addr = data ∧
        ∀ a, a ≠ addr → c1.memory a = c.memory a) := by
  refine ⟨?_, ?_, ?_, ?_, ?_, ?_, ?_⟩
  · intro h
    unfold write_byte
    rw [if_neg (by omega : ¬ addr < 4096)]
  · intro h
    unfold read_byte
    rw [if_neg (by omega : ¬ addr < 4096)]
  · intro h
    unfold read_word
    rw [if_neg (by omega : ¬ addr + 2 ≤ 4096)]
  · intro h
    by_cases h1 : addr < 4096
    · have ha : addr = 4095 := by omega
      subst ha
      simp [write_word, write_byte]
    · simp [write_word, write_byte, h1]
  · intro h
    unfold write_bytes
    rw [if_neg (by omega : ¬ addr + bs.length ≤ 4096)]
  · intro h
    unfold read_bytes
    rw [if_neg (by omega : ¬ addr + sz ≤ 4096)]
  · intro h
    refine ⟨{ c with memory := fun a => if a = addr then data else c.memory a }, ?_, ?_, ?_⟩
    · unfold write_byte
      rw [if_pos h]
    · simp
    · intro a ha
      simp [ha]

/-- witness for the C7 theorem: each bound is exercised at a concrete
address just outside (or inside) the 4096-byte memory. -/
theorem memory_access_bounds_witness :
    write_byte CPU.new 4096 7 = .error .indexOutOfBounds ∧
    read_byte CPU.new 5000 = .error .indexOutOfBounds ∧
    read_word CPU.new 4095 = .error .readOutOfBounds ∧
    write_word CPU.new 4095 0xabcd = .error .indexOutOfBounds ∧
    write_bytes CPU.new 4090 [1, 2, 3, 4, 5, 6, 7] = .error .indexOutOfBounds ∧
    read_bytes CPU.new 4090 7 = .error .readOutOfBounds ∧
    ∃ c1, write_byte CPU.new 10 7 = .ok c1 ∧ c1.memory 10 = 7 ∧
      ∀ a, a ≠ 10 → c1.memory a = CPU.new.memory a := by
  exact ⟨(memory_access_bounds CPU.new 4096 7 0 []).1 (by decide),
         (memory_access_bounds CPU.new 5000 7 0 []).2.1 (by decide),
         (memory_access_bounds CPU.new 4095 7 0 []).2.2.1 (by decide),
         (memory_access_bounds CPU.new 4095 0xabcd 0 []).2.2.2.1 (by decide),
         (memory_access_bounds CPU.new 4090 7 0 [1, 2, 3, 4, 5, 6, 7]).2.2.2.2.1 (by decide),
         (memory_access_bounds CPU.new 4090 7 7 []).2.2.2.2.2.1 (by decide),
         (memory_access_bounds CPU.new 10 7 0 []).2.2.2.2.2.2 (by decide)⟩

set_option maxHeartbeats 2000000 in
/-- dispatch falls through to the panic arm on every unmatched word. -/
theorem execute_unmatched (c : CPU) (w : Nat) (h : ¬ matched_opcode w) :
    execute c w = .error .undefinedOpcode := by
  unfold matched_opcode at h
  unfold execute
  dsimp only
  rw [if_neg (by omega : ¬ w = 0x00e0),
      if_neg (by omega : ¬ w = 0x00ee),
      if_neg (by omega : ¬ (0x1000 ≤ w ∧ w ≤ 0x1fff)),
      if_neg (by omega : ¬ (0x2000 ≤ w ∧ w ≤ 0x2fff)),
      if_neg (by omega : ¬ (0x3000 ≤ w ∧ w ≤ 0x3fff)),
      if_neg (by omega : ¬ (0x4000 ≤ w ∧ w ≤ 0x4fff)),
      if_neg (by omega : ¬ (0x5000 ≤ w ∧ w ≤ 0x5fff)),
      if_neg (by omega : ¬ (0x6000 ≤ w ∧ w ≤ 0x6fff)),
      if_neg (by omega : ¬ (0x7000 ≤ w ∧ w ≤ 0x7fff)),
      if_neg (by omega : ¬ (0x8000 ≤ w ∧ w ≤ 0x8fff)),
      if_neg (by omega : ¬ (0x9000 ≤ w ∧ w ≤ 0x9fff)),
      if_neg (by omega : ¬ (0xa000 ≤ w ∧ w ≤ 0xafff)),
      if_neg (by omega : ¬ (0xb000 ≤ w ∧ w ≤ 0xbfff)),
      if_neg (by omega : ¬ (0xc000 ≤ w ∧ w ≤ 0xcfff)),
      if_neg (by omega : ¬ (0xf007 ≤ w ∧ w ≤ 0xff07)),
      if_neg (by omega : ¬ (0xf015 ≤ w ∧ w ≤ 0xff15)),
      if_neg (by omega : ¬ (0xf018 ≤ w ∧ w ≤ 0xff18)),
      if_neg (by omega : ¬ (0xf01e ≤ w ∧ w ≤ 0xff1e)),
      if_neg (by omega : ¬ (0xf055 ≤ w ∧ w ≤ 0xff55)),
      if_neg (by omega : ¬ (0xf065 ≤ w ∧ w ≤ 0xff65))]

/-- C5 amended: a fetched instruction word matching none of the defined
opcode patterns does not produce a reportable, recoverable condition — the
source executes `panic!("undefined opcode")`, a process-terminating failure,
modelled here as the `undefinedOpcode` panic value. -/
theorem unknown_opcode_is_a_panic (c : CPU) (ms w : Nat)
    (hpc : c.regs.pc + 2 ≤ 4096)
    (hw : c.memory c.regs.pc * 256 + c.memory (c.regs.pc + 1) = w)
    (hum : ¬ matched_opcode w) :
    clock c ms = .error .undefinedOpcode := by
  unfold clock
  dsimp only
  unfold read_word
  rw [if_pos hpc, hw]
  exact execute_unmatched _ _ hum

/-- a machine about to fetch the unmatched word 0x0123. -/
def unknown_cpu : CPU :=
  { CPU.new with memory := fun a => if a = 0 then 0x01 else if a = 1 then 0x23 else 0 }

/-- witness for the C5 amended theorem at the concrete unmatched word 0x0123. -/
theorem unknown_opcode_is_a_panic_witness :
    ¬ matched_opcode 0x0123 ∧ clock unknown_cpu 5 = .error .undefinedOpcode := by
  exact ⟨by decide, unknown_opcode_is_a_panic unknown_cpu 5 0x0123 (by decide) (by decide)
          (by decide)⟩

/-- a machine with V15 = 200, for exercising `8xy4` with the flag register
as destination. -/
def add_vf_cpu : CPU :=
  { CPU.new with
    regs := { CPU.new.regs with v_regs := fun j => if j = 0xf then 200 else 0 } }

/-- C8 counterexample: executing `8FF4` with V15 = 200 has a true sum of 400
(which exceeds 255), yet afterwards the flag register holds the wrapped sum
144, not 1: the carry flag written mid-instruction is overwritten because
the destination register is V0xF itself. -/
theorem add_flag_not_one_when_dest_is_flag :
    255 < add_vf_cpu.regs.v_regs 0xf + add_vf_cpu.regs.v_regs 0xf ∧
    (binary_reg_op add_vf_cpu 0xf 0xf 0x4).regs.v_regs 0xf = 144 ∧
    (binary_reg_op add_vf_cpu 0xf 0xf 0x4).regs.v_regs 0xf ≠ 1 := by
  exact ⟨by decide, rfl, by decide⟩

set_option maxHeartbeats 2000000 in
/-- executing a `7xkk` word adds `kk` to Vx modulo 256 and advances PC. -/
theorem execute_addi (c : CPU) (x kk : Nat) (hx : x < 16) (hk : kk < 256) :
    execute c ((0x70 + x) * 256 + kk)
      = .ok (setV (set_pc c ((c.regs.pc + 2) % 65536)) x
          ((c.regs.v_regs x + kk) % 256)) := by
  unfold execute
  simp only [bytes_to_nibbles, List.getD_cons_zero, List.getD_cons_succ]
  rw [if_neg (by omega : ¬ (0x70 + x) * 256 + kk = 0x00e0),
      if_neg (by omega : ¬ (0x70 + x) * 256 + kk = 0x00ee),
      if_neg (by omega : ¬ (0x1000 ≤ (0x70 + x) * 256 + kk ∧ (0x70 + x) * 256 + kk ≤ 0x1fff)),
      if_neg (by omega : ¬ (0x2000 ≤ (0x70 + x) * 256 + kk ∧ (0x70 + x) * 256 + kk ≤ 0x2fff)),
      if_neg (by omega : ¬ (0x3000 ≤ (0x70 + x) * 256 + kk ∧ (0x70 + x) * 256 + kk ≤ 0x3fff)),
      if_neg (by omega : ¬ (0x4000 ≤ (0x70 + x) * 256 + kk ∧ (0x70 + x) * 256 + kk ≤ 0x4fff)),
      if_neg (by omega : ¬ (0x5000 ≤ (0x70 + x) * 256 + kk ∧ (0x70 + x) * 256 + kk ≤ 0x5fff)),
      if_neg (by omega : ¬ (0x6000 ≤ (0x70 + x) * 256 + kk ∧ (0x70 + x) * 256 + kk ≤ 0x6fff)),
      if_pos (by omega : 0x7000 ≤ (0x70 + x) * 256 + kk ∧ (0x70 + x) * 256 + kk ≤ 0x7fff)]
  rw [show ((0x70 + x) * 256 + kk) / 256 % 16 = x by omega,
      show ((0x70 + x) * 256 + kk) % 256 = kk by omega]
  rfl

/-- C8 amended: for a destination register x ≠ 0xF, `8xy4` sets the flag to
1 exactly when the true sum of Vx and Vy exceeds 255 (else 0) and stores the
wrapped sum (Vx + Vy) mod 256 (when x = 0xF the wrapped sum overwrites the
flag); and a `7xkk` instruction, executed through `clock`, stores
(Vx + kk) mod 256 into Vx, changing no other general register and touching
no flag. -/
theorem add_carry_exact_and_addi_wraps :
    (∀ (c : CPU) (dest src : Nat), dest ≠ 0xf →
      ((binary_reg_op c dest src 0x4).regs.v_regs 0xf
          = if 255 < c.regs.v_regs dest + c.regs.v_regs src then 1 else 0) ∧
      (binary_reg_op c dest src 0x4).regs.v_regs dest
          = (c.regs.v_regs dest + c.regs.v_regs src) % 256) ∧
    (∀ (c : CPU) (x kk ms : Nat), x < 16 → kk < 256 →
      c.regs.pc + 2 ≤ 4096 →
      c.memory c.regs.pc = 0x70 + x →
      c.memory (c.regs.pc + 1) = kk →
      ∃ c1, clock c ms = .ok c1 ∧
        c1.regs.v_regs x = (c.regs.v_regs x + kk) % 256 ∧
        ∀ j, j ≠ x → c1.regs.v_regs j = c.regs.v_regs j) := by
  constructor
  · intro c dest src hd
    have h15 : (0xf : Nat) ≠ dest := fun hh => hd hh.symm
    constructor <;> simp [binary_reg_op, setV_v_regs, set_vf_cond, h15]
  · intro c x kk ms hx hk hpc h4 h5
    unfold clock
    dsimp only
    unfold read_word
    rw [if_pos hpc, h4, h5]
    dsimp only
    rw [execute_addi _ x kk hx hk]
    refine ⟨_, rfl, ?_, ?_⟩
    · simp [setV_v_regs]
    · intro j hj
      simp [setV_v_regs, set_pc, hj]

/-- a machine with V1 = 250 about to execute `0x7105` (V1 += 5). -/
def addi_cpu : CPU :=
  { CPU.new with
    memory := fun a => if a = 0 then 0x71 else if a = 1 then 5 else 0
    regs := { CPU.new.regs with v_regs := fun j => if j = 1 then 250 else 0 } }

/-- witness for the amended C8 theorem: the ADD part at a fresh machine and
the `7xkk` part at `0x7105` with V1 = 250 (a wrapping case). -/
theorem add_carry_exact_and_addi_wraps_witness :
    ((binary_reg_op CPU.new 1 2 0x4).regs.v_regs 0xf
        = if 255 < CPU.new.regs.v_regs 1 + CPU.new.regs.v_regs 2 then 1 else 0) ∧
    ∃ c1, clock addi_cpu 0 = .ok c1 ∧
      c1.regs.v_regs 1 = (addi_cpu.regs.v_regs 1 + 5) % 256 ∧
      ∀ j, j ≠ 1 → c1.regs.v_regs j = addi_cpu.regs.v_regs j := by
  exact ⟨(add_carry_exact_and_addi_wraps.1 CPU.new 1 2 (by decide)).1,
         add_carry_exact_and_addi_wraps.2 addi_cpu 1 5 0 (by decide) (by decide) (by decide)
           (by decide) (by decide)⟩

/-! ## Timer accumulation (C9) -/

/-- the cumulative number of timer ticks produced by a sequence of `clock`
timer updates started with leftover `e`, mirroring the `timer_ticks` /
`timedelta_error` computation of `timer_update` call by call. -/
def timer_ticks_seq (e : Nat) : List Nat → Nat
  | [] => 0
  | m :: rest =>
    (m + e) % 4294967296 / 16 + timer_ticks_seq ((m + e) % 4294967296 % 16) rest

/-- iterate `timer_update` over a list of elapsed-millisecond deltas,
threading the `(st, dt, timedelta_error)` state. -/
def timer_update_seq (sde : Nat × Nat × Nat) : List Nat → Nat × Nat × Nat
  | [] => sde
  | m :: rest => timer_update_seq (timer_update sde.1 sde.2.1 sde.2.2 m) rest

theorem timer_update_eq (st dt err m : Nat) :
    timer_update st dt err m = (0, 0, (m + err) % 16) := by
  unfold timer_update
  refine Prod.ext ?_ (Prod.ext ?_ ?_)
  · simp [Nat.min_def]
  · simp [Nat.min_def]
  · dsimp only
    omega

theorem timer_update_seq_eq : ∀ (rest : List Nat) (s d e m : Nat),
    timer_update_seq (s, d, e) (m :: rest) = (0, 0, (m + rest.sum + e) % 16) := by
  intro rest
  induction rest with
  | nil =>
    intro s d e m
    simp [timer_update_seq, timer_update_eq]
  | cons r rs ih =>
    intro s d e m
    show timer_update_seq (timer_update s d e m) (r :: rs) = _
    rw [timer_update_eq]
    rw [ih 0 0 ((m + e) % 16) r]
    refine Prod.ext rfl (Prod.ext rfl ?_)
    simp [List.sum_cons]
    omega

theorem timer_ticks_seq_eq : ∀ (ds : List Nat) (e : Nat), e < 16 →
    ds.sum + e < 4294967296 → timer_ticks_seq e ds = (ds.sum + e) / 16 := by
  intro ds
  induction ds with
  | nil =>
    intro e he _
    simp [timer_ticks_seq]
    omega
  | cons m rest ih =>
    intro e he hsum
    simp only [timer_ticks_seq, List.sum_cons] at *
    rw [show (m + e) % 4294967296 = m + e by omega]
    rw [ih ((m + e) % 16) (by omega) (by omega)]
    omega

/-- C9: the leftover-millisecond accumulation of the clock is exact. For
any starting `(st, dt, timedelta_error)` state with a sub-period leftover,
a sequence of elapsed-time deltas produces exactly the tick count of a
single call with their sum, and (for a nonempty sequence) the very same
final `(st, dt, timedelta_error)` state — hence the same cumulative timer
decrement — as that single call. -/
theorem clock_accumulation_exact (s d e : Nat) (ds : List Nat)
    (he : e < 16) (hsum : ds.sum + e < 4294967296) :
    timer_ticks_seq e ds = (ds.sum + e) / 16 ∧
    (ds ≠ [] → timer_update_seq (s, d, e) ds = timer_update s d e ds.sum) := by
  refine ⟨timer_ticks_seq_eq ds e he hsum, ?_⟩
  intro hne
  cases ds with
  | nil => exact absurd rfl hne
  | cons m rest =>
    rw [timer_update_seq_eq, timer_update_eq]
    refine Prod.ext rfl (Prod.ext rfl ?_)
    simp [List.sum_cons]

/-- witness for the C9 theorem: five 4ms deltas against a single 20ms call,
from timers (7, 9): one tick is produced either way, both paths end in the
identical state, and the leftover remainder is 4. -/
theorem clock_accumulation_exact_witness :
    timer_ticks_seq 0 [4, 4, 4, 4, 4] = 1 ∧
    timer_update_seq (7, 9, 0) [4, 4, 4, 4, 4] = timer_update 7 9 0 20 ∧
    timer_update 7 9 0 20 = (0, 0, 4) := by
  refine ⟨?_, ?_, by decide⟩
  · rw [(clock_accumulation_exact 7 9 0 [4, 4, 4, 4, 4] (by decide) (by decide)).1]
    decide
  · exact (clock_accumulation_exact 7 9 0 [4, 4, 4, 4, 4] (by decide) (by decide)).2
      (by decide)

end Chip8
